import Mathlib

/-!
Shallow embedding of `sacred/observers/HPCFS.py` (the `HPCFSObserver` run
recorder and the `create_tinyDB` aggregation sweep), together with theorems
settling the specification claims about it.

Modelling conventions:
* Python values that the observer stores opaquely (configuration, results,
  host info, ...) are modelled by the inductive type `PyVal`.
* A Python dict key that may be absent is modelled by an `Option` field:
  `none` means the key is not present in the dict, `some v` means the key is
  present with value `v`.  `run_entry['ETA']` is therefore doubly optional:
  the key can be absent (popped by `completed_event`) or present with value
  `None` (as initialised by `started_event`).
* A Python method that can raise is modelled as returning a pair of the
  mutated state and an `Option String` carrying the exception message; the
  state component reflects all mutations performed before the raise.
* Timestamps are opaque strings (the `.isoformat()` of the datetimes); the
  wall-clock duration `datetime.utcnow() - self.start_time` used by the ETA
  computation is an explicit rational parameter `secondsSinceStart`.
* Writes of `run.json` / `cout.txt` / `info.json` performed by the events
  re-serialise the in-memory state and are not tracked separately; the
  content store used by `find_or_save` is modelled by an explicit
  association list from path strings to file contents.
-/

/-- A Python value as handled by the observer: `None`, a number (modelled as
a rational, covering ints and non-NaN floats), a string, a list, or a dict
with string keys. -/
inductive PyVal where
  | none : PyVal
  | num : ℚ → PyVal
  | str : String → PyVal
  | list : List PyVal → PyVal
  | dict : List (String × PyVal) → PyVal
  deriving Repr

/-- Python `isinstance(v, dict)`. -/
def PyVal.isDict : PyVal → Bool
  | .dict _ => true
  | _ => false

/-- Python dict item assignment `d[k] = v` on an association list: replaces
the entry for `k` if present, otherwise appends it. -/
def dictSet (d : List (String × PyVal)) (k : String) (v : PyVal) :
    List (String × PyVal) :=
  if d.any (fun kv => kv.1 = k) then
    d.map (fun kv => if kv.1 = k then (k, v) else kv)
  else
    d ++ [(k, v)]

/-- The in-memory `self.run_entry` dict built by `started_event` and mutated
by the later lifecycle events.  Keys that can be absent are `Option` fields
(see the file header); `eta` models the `'ETA'` key, which is present with
value `None` right after `started_event` and removed by `completed_event`. -/
structure RunEntry where
  experiment : PyVal
  command : String
  host : PyVal
  start_time : String
  meta : PyVal
  status : String
  resources : List (String × String)
  artifacts : List String
  heartbeat : Option String
  config : PyVal
  eta : Option (Option ℚ)
  stop_time : Option String
  result : Option PyVal
  fail_trace : Option String
  deriving Repr

/-- The mutable attributes of an `HPCFSObserver` instance that the lifecycle
events touch: `self.run_entry`, `self.info` and `self.cout`.  The directory
handling (`self.dir`) and the JSON flushes are not tracked here. -/
structure ObsState where
  run_entry : RunEntry
  info : PyVal
  cout : String
  deriving Repr

/-- `HPCFSObserver.started_event` (the `run_entry` initialisation part):
builds the fresh record with `status = 'RUNNING'`, empty resource/artifact
lists, `heartbeat = None`, `'ETA': None` present, and no `stop_time`,
`result` or `fail_trace` keys; resets `self.info` to `{}` and `self.cout`
to the empty string. -/
def started_event (ex_info : PyVal) (command : String) (host_info : PyVal)
    (start_time : String) (config : PyVal) (meta_info : PyVal) : ObsState :=
  { run_entry :=
      { experiment := ex_info
        command := command
        host := host_info
        start_time := start_time
        meta := meta_info
        status := "RUNNING"
        resources := []
        artifacts := []
        heartbeat := Option.none
        config := config
        eta := Option.some Option.none
        stop_time := Option.none
        result := Option.none
        fail_trace := Option.none }
    info := PyVal.dict []
    cout := "" }

/-- The `try: self.run_entry['ETA'] = (1./result-1.) * diff.total_seconds()`
body of `heartbeat_event`: returns `some eta` when the Python expression
evaluates without an exception (i.e. `result` is a nonzero number), and
`none` when it raises (`ZeroDivisionError` for zero, `TypeError` for
non-numeric values such as `None`, strings, lists or dicts). -/
def etaTry (result : PyVal) (secondsSinceStart : ℚ) : Option ℚ :=
  match result with
  | .num r => if r = 0 then Option.none
              else Option.some ((1 / r - 1) * secondsSinceStart)
  | _ => Option.none

/-- `HPCFSObserver.heartbeat_event`: stores `info`, sets the `heartbeat`
timestamp and the live `result` value, attempts the best-effort ETA update
inside a `try/except: pass` (leaving `eta` untouched when the computation
raises), and overwrites `self.cout`.  The method itself never raises. -/
def heartbeat_event (s : ObsState) (info : PyVal) (captured_out : String)
    (beat_time : String) (result : PyVal) (secondsSinceStart : ℚ) : ObsState :=
  let e := s.run_entry
  let e := { e with heartbeat := Option.some beat_time,
                    result := Option.some result }
  let e := match etaTry result secondsSinceStart with
           | Option.some v => { e with eta := Option.some (Option.some v) }
           | Option.none => e
  { run_entry := e, info := info, cout := captured_out }

/-- The `for (k,v) in result.items()` loop of `completed_event`: for each
result key `k`, the value is pickled to `str(k)+'.gzp'` and
`self.run_entry['result'][k] = fn` replaces the live value with that file
name.  The subscript raises `KeyError` when the record has no `result` key
(only `heartbeat_event` creates it) and `TypeError` when the stored result
is not a dict. -/
def completeLoop : RunEntry → List (String × PyVal) → RunEntry × Option String
  | e, [] => (e, Option.none)
  | e, (k, _) :: rest =>
    match e.result with
    | Option.some (PyVal.dict res) =>
      completeLoop
        { e with result :=
            Option.some (PyVal.dict (dictSet res k (PyVal.str (k ++ ".gzp")))) }
        rest
    | Option.some _ => (e, Option.some "TypeError: object does not support item assignment")
    | Option.none => (e, Option.some "KeyError: result")

/-- `HPCFSObserver.completed_event`: sets `stop_time`, pops the `'ETA'` key
(`KeyError` if absent), asserts that `result` is a dict, rewrites every
result entry to its pickle file name, and only then sets
`status = 'COMPLETED'`.  The returned state reflects the mutations performed
before any raised exception. -/
def completed_event (s : ObsState) (stop_time : String) (result : PyVal) :
    ObsState × Option String :=
  let e := { s.run_entry with stop_time := Option.some stop_time }
  match e.eta with
  | Option.none => ({ s with run_entry := e }, Option.some "KeyError: ETA")
  | Option.some _ =>
    let e := { e with eta := Option.none }
    match result with
    | PyVal.dict items =>
      match completeLoop e items with
      | (e2, Option.none) =>
        ({ s with run_entry := { e2 with status := "COMPLETED" } }, Option.none)
      | (e2, Option.some err) => ({ s with run_entry := e2 }, Option.some err)
    | _ =>
      ({ s with run_entry := e },
       Option.some "AssertionError: Your experiments has to return a dictionary!")

/-- `HPCFSObserver.interrupted_event`: sets `stop_time` and overwrites
`status` with the caller-supplied label; never raises. -/
def interrupted_event (s : ObsState) (interrupt_time : String)
    (status : String) : ObsState :=
  { s with run_entry :=
      { s.run_entry with stop_time := Option.some interrupt_time,
                         status := status } }

/-- `HPCFSObserver.failed_event`: sets `stop_time`, `status = 'FAILED'` and
stores the failure trace; never raises. -/
def failed_event (s : ObsState) (fail_time : String) (fail_trace : String) :
    ObsState :=
  { s with run_entry :=
      { s.run_entry with stop_time := Option.some fail_time,
                         status := "FAILED",
                         fail_trace := Option.some fail_trace } }

/-- The arguments of one `heartbeat_event` call. -/
structure HBArgs where
  info : PyVal
  captured_out : String
  beat_time : String
  result : PyVal
  secondsSinceStart : ℚ
  deriving Repr

/-- Run a sequence of heartbeats against an observer state. -/
def runHeartbeats (s : ObsState) : List HBArgs → ObsState
  | [] => s
  | h :: rest =>
    runHeartbeats
      (heartbeat_event s h.info h.captured_out h.beat_time h.result
        h.secondsSinceStart) rest

/-- A terminal lifecycle event: exactly one of `completed_event`,
`interrupted_event`, `failed_event`. -/
inductive TermEvent where
  | complete (stop_time : String) (result : PyVal)
  | interrupt (interrupt_time : String) (status : String)
  | fail (fail_time : String) (fail_trace : String)
  deriving Repr

/-- The status string a terminal event writes when it succeeds. -/
def termLabel : TermEvent → String
  | .complete _ _ => "COMPLETED"
  | .interrupt _ st => st
  | .fail _ _ => "FAILED"

/-- Apply a terminal event; `interrupted_event` and `failed_event` never
raise, `completed_event` may. -/
def applyTerm (s : ObsState) : TermEvent → ObsState × Option String
  | .complete t r => completed_event s t r
  | .interrupt t st => (interrupted_event s t st, Option.none)
  | .fail t tr => (failed_event s t tr, Option.none)

/-- A file's byte content. -/
def Content := List Nat

instance : DecidableEq Content := inferInstanceAs (DecidableEq (List Nat))

/-- A flat filesystem: an association list from absolute path strings to
file contents.  Directories are not tracked (`os.makedirs` always
succeeds). -/
def FS := List (String × Content)

/-- Python `os.path.exists(p)` on the modelled filesystem. -/
def fsExists (fs : FS) (p : String) : Bool :=
  (List.find? (fun f => f.1 = p) fs).isSome

/-- Reading the file at `p`: `some` content when it exists. -/
def fsRead (fs : FS) (p : String) : Option Content :=
  Option.map (fun f => f.2) (List.find? (fun f => f.1 = p) fs)

/-- Writing content `c` to path `p` (as `shutil.copyfile` does at the
destination): overwrites any existing entry. -/
def fsWrite (fs : FS) (p : String) (c : Content) : FS :=
  (p, c) :: List.filter (fun f => ¬ f.1 = p) fs

/-- A source path split as `os.path` does: the containing directory, the
basename stem and the extension, so that
`os.path.splitext(os.path.basename(...))` is immediate. -/
structure SPath where
  dir : String
  stem : String
  ext : String

/-- The full path string of an `SPath` (`os.path.join(dir, stem + ext)`). -/
def SPath.render (p : SPath) : String :=
  p.dir ++ "/" ++ p.stem ++ p.ext

/-- `HPCFSObserver.find_or_save(filename, store_dir)`.  `get_digest` lives in
`sacred.dependencies`, outside this file; modelled from the spec: it computes
a content digest of the file's bytes, so it is passed in as a function
`digest` of the content only.  Reading a missing source file propagates an
error (both `get_digest` and `copyfile` would raise); the `os.makedirs` call
for a missing store directory is a no-op in the flat filesystem model.
Returns the updated filesystem together with `(store_path, md5sum)`. -/
def find_or_save (digest : Content → String) (fs : FS) (filename : SPath)
    (store_dir : String) : Except String (FS × String × String) :=
  match fsRead fs filename.render with
  | Option.none => Except.error "FileNotFoundError"
  | Option.some content =>
    let md5sum := digest content
    let store_name := filename.stem ++ "_" ++ md5sum ++ filename.ext
    let store_path := store_dir ++ "/" ++ store_name
    if fsExists fs store_path then
      Except.ok (fs, store_path, md5sum)
    else
      Except.ok (fsWrite fs store_path content, store_path, md5sum)

/-- The constructor attributes of an `HPCFSObserver` relevant to equality. -/
structure HPCFSObserver where
  basedir : String
  resource_dir : String
  source_dir : String
  pri : Nat

/-- `HPCFSObserver.__eq__(self, other)`.  The method body is
`isinstance(other, FileStorageObserver)`, but the name `FileStorageObserver`
is neither imported nor defined anywhere in `HPCFS.py`, so evaluating the
body raises `NameError` before any comparison of `basedir` can happen —
for every pair of observers. -/
def observerEq (_self _other : HPCFSObserver) : Except String Bool :=
  Except.error "NameError: name FileStorageObserver is not defined"

/-- `HPCFSObserver.__ne__(self, other)` delegates to `__eq__` and negates,
so it propagates the same `NameError`. -/
def observerNe (self other : HPCFSObserver) : Except String Bool :=
  match observerEq self other with
  | Except.ok b => Except.ok (¬ b)
  | Except.error e => Except.error e

/-- What loading `run.json` in one walked directory yields, as seen by the
body of `create_tinyDB`'s per-directory `try` block:
* `noRecord`: the directory has no `db_filename` (the `continue` at the
  `isfile` check);
* `parseError`: opening or `json.load`-ing the file raises;
* `datum st res`: a parsed JSON object; `st` is its `'status'` value and
  `res` its `'result'` mapping, each `none` when the key is absent or not of
  the expected shape (so that accessing it raises inside the `try`). -/
inductive LoadResult where
  | noRecord : LoadResult
  | parseError : LoadResult
  | datum : Option String → Option (List (String × String)) → LoadResult
  deriving Repr

/-- `os.path.join(rel_path, v)` as used when rewriting result entries. -/
def pathJoin (a b : String) : String := a ++ "/" ++ b

/-- An inserted index document: the run's status together with its rewritten
result mapping (the other record fields are carried through verbatim and are
irrelevant to the claims). -/
structure RunDoc where
  status : String
  result : List (String × String)
  deriving Repr

/-- The fallback/logger message emitted when a directory fails to load (the
`logger.INFO(...)` / `print(...)` branch; the two sinks emit the same text,
and the follow-up line printing the exception itself is folded into the
same log event). -/
def logMsg (cur : String) : String :=
  "Something went wrong loading subdirectory " ++ cur ++ ". Skipping it."

/-- What the body of the walk loop does for one directory `cur` (given as
its path relative to `source_dir`): either inserts a rewritten document,
silently skips (`continue`), or catches an exception and logs. -/
inductive DirOutcome where
  | inserted : RunDoc → DirOutcome
  | skipped : DirOutcome
  | errorLogged : DirOutcome
  deriving Repr

/-- One iteration of `create_tinyDB`'s `os.walk` loop: skip when
`db_filename` is absent; on a load exception, or a `KeyError` from
`datum['status']` / `datum['result']`, the `except` branch logs and
continues; a non-COMPLETED status with `skip_incomplete` is skipped before
`'result'` is ever accessed; otherwise every result entry is prefixed with
the directory's path relative to the source root and the document is
inserted. -/
def processDir (rel_path : String) (d : LoadResult) (skip_incomplete : Bool) :
    DirOutcome :=
  match d with
  | .noRecord => .skipped
  | .parseError => .errorLogged
  | .datum st res =>
    match st with
    | Option.none => .errorLogged
    | Option.some st =>
      if st ≠ "COMPLETED" ∧ skip_incomplete then .skipped
      else
        match res with
        | Option.none => .errorLogged
        | Option.some res =>
          .inserted { status := st,
                      result := res.map (fun kv => (kv.1, pathJoin rel_path kv.2)) }

/-- The whole walk: the visited directories in `os.walk` order, each with its
path relative to `source_dir` and its load result.  Returns the inserted
documents (in insertion order) and the logged failure messages. -/
def sweep (skip_incomplete : Bool) :
    List (String × LoadResult) → List RunDoc × List String
  | [] => ([], [])
  | (rel, d) :: rest =>
    let r := sweep skip_incomplete rest
    match processDir rel d skip_incomplete with
    | .inserted doc => (doc :: r.1, r.2)
    | .skipped => r
    | .errorLogged => (r.1, logMsg rel :: r.2)

/-- The result of a `create_tinyDB` call: the destination file's content
after the call (`none` when it does not exist), the escaped exception when
one is raised, and the logged per-directory failure messages. -/
structure AggResult where
  dest : Option (List RunDoc)
  err : Option String
  logs : List String
  deriving Repr

/-- `create_tinyDB(source_dir, destination, overwrite, skip_incomplete,...)`.
The source tree is given as the walk it induces (directory paths relative to
`source_dir`, with each directory's `run.json` load result); the destination
file's current content is `dest`.  Raises `FileExistsError` before touching
anything when the destination exists and `overwrite` is false; otherwise the
documents are collected into a fresh temporary database that is renamed over
the destination at the end. -/
def create_tinyDB (dest : Option (List RunDoc)) (overwrite : Bool)
    (skip_incomplete : Bool) (walk : List (String × LoadResult)) : AggResult :=
  if dest.isSome ∧ overwrite = false then
    { dest := dest,
      err := Option.some "FileExistsError: Databasefile already exists",
      logs := [] }
  else
    let r := sweep skip_incomplete walk
    { dest := Option.some r.1, err := Option.none, logs := r.2 }

/-! Helper lemmas about the filesystem model. -/

/-- A freshly written path exists. -/
theorem fsExists_fsWrite_self (fs : FS) (p : String) (c : Content) :
    fsExists (fsWrite fs p c) p = true := by
  simp [fsExists, fsWrite, List.find?]

/-- C2: `find_or_save` derives the stored name as
`stem(sourcePath) + "_" + digest + ext(sourcePath)`, copies the source's
contents to `storeDir/storedName` only when that path does not already exist
(leaving the store untouched when it does), and returns the stored path and
the digest unconditionally in both cases. -/
theorem c2_find_or_save_correct (digest : Content → String) (fs : FS)
    (src : SPath) (store_dir : String) (content : Content)
    (h : fsRead fs src.render = Option.some content) :
    find_or_save digest fs src store_dir =
      Except.ok
        (if fsExists fs
              (store_dir ++ "/" ++ (src.stem ++ "_" ++ digest content ++ src.ext))
         then fs
         else fsWrite fs
              (store_dir ++ "/" ++ (src.stem ++ "_" ++ digest content ++ src.ext))
              content,
         store_dir ++ "/" ++ (src.stem ++ "_" ++ digest content ++ src.ext),
         digest content) := by
  unfold find_or_save
  rw [h]
  by_cases he :
      fsExists fs
        (store_dir ++ "/" ++ (src.stem ++ "_" ++ digest content ++ src.ext)) = true
  · simp [he]
  · simp only [Bool.not_eq_true] at he
    simp [he]

/-- C2 witness: evaluating `find_or_save` on a one-file store. -/
theorem c2_witness :
    find_or_save (fun _ => "D") [("d/a.py", ([1] : Content))]
        ⟨"d", "a", ".py"⟩ "s" =
      Except.ok ([("s/a_D.py", [1]), ("d/a.py", [1])], "s/a_D.py", "D") := by
  have h := c2_find_or_save_correct (fun _ => "D")
      [("d/a.py", ([1] : Content))] ⟨"d", "a", ".py"⟩ "s" [1] rfl
  simpa [fsExists, fsWrite, List.find?] using h

/-- C1 counterexample: two files `d/a.py` and `d/b.py` with identical byte
content `[1]` but different names.  Storing both under store directory `s`
yields DIFFERENT stored paths (`s/a_X.py` vs `s/b_X.py`) — the stored name
includes the source file's basename stem — and the second call performs a
second copy (the store grows by another entry), contradicting the claim
that the stored path coincides and that the file is written only once. -/
theorem c1_counterexample :
    find_or_save (fun _ => "X") [("d/a.py", [1]), ("d/b.py", [1])]
        ⟨"d", "a", ".py"⟩ "s" =
      Except.ok ([("s/a_X.py", [1]), ("d/a.py", [1]), ("d/b.py", [1])],
        "s/a_X.py", "X") ∧
    find_or_save (fun _ => "X")
        [("s/a_X.py", [1]), ("d/a.py", [1]), ("d/b.py", [1])]
        ⟨"d", "b", ".py"⟩ "s" =
      Except.ok
        ([("s/b_X.py", [1]), ("s/a_X.py", [1]), ("d/a.py", [1]), ("d/b.py", [1])],
         "s/b_X.py", "X") ∧
    ("s/a_X.py" : String) ≠ "s/b_X.py" := by
  refine ⟨rfl, rfl, by decide⟩

/-- C1 amended: for two files with identical byte content AND the same
basename (equal stem and extension), storing both under the same store
directory yields the same stored path and digest, and the underlying file is
written at most once — if the stored path was absent initially the first
call writes it, and the second call performs no copy at all (the store is
returned unchanged). -/
theorem c1_amended_dedup (digest : Content → String) (fs : FS)
    (f1 f2 : SPath) (store_dir : String) (c : Content)
    (fs1 : FS) (p1 d1 : String)
    (h1 : fsRead fs f1.render = Option.some c)
    (hstem : f2.stem = f1.stem) (hext : f2.ext = f1.ext)
    (hcall1 : find_or_save digest fs f1 store_dir = Except.ok (fs1, p1, d1))
    (h2 : fsRead fs1 f2.render = Option.some c) :
    find_or_save digest fs1 f2 store_dir = Except.ok (fs1, p1, d1) ∧
    (fsExists fs p1 = false → fs1 = fsWrite fs p1 c) := by
  rw [c2_find_or_save_correct digest fs f1 store_dir c h1] at hcall1
  by_cases he : fsExists fs
      (store_dir ++ "/" ++ (f1.stem ++ "_" ++ digest c ++ f1.ext)) = true
  · simp only [he, if_true, Except.ok.injEq, Prod.mk.injEq] at hcall1
    obtain ⟨hfs, hp, hd⟩ := hcall1
    subst hfs
    subst hp
    subst hd
    constructor
    · rw [c2_find_or_save_correct digest fs f2 store_dir c h2, hstem, hext, he]
      simp
    · intro habs
      rw [he] at habs
      cases habs
  · simp only [Bool.not_eq_true] at he
    simp only [he, Bool.false_eq_true, if_false, Except.ok.injEq,
      Prod.mk.injEq] at hcall1
    obtain ⟨hfs, hp, hd⟩ := hcall1
    subst hfs
    subst hp
    subst hd
    constructor
    · rw [c2_find_or_save_correct digest _ f2 store_dir c h2, hstem, hext,
        fsExists_fsWrite_self]
      simp
    · intro _
      rfl

/-- C1 amended witness: `d/a.py` and `e/a.py`, same basename `a.py`, same
content; the first call copies once, the second call returns the same path
and digest and leaves the store unchanged. -/
theorem c1_amended_witness :
    find_or_save (fun _ => "X")
        [("s/a_X.py", [1]), ("d/a.py", [1]), ("e/a.py", [1])]
        ⟨"e", "a", ".py"⟩ "s" =
      Except.ok ([("s/a_X.py", [1]), ("d/a.py", [1]), ("e/a.py", [1])],
        "s/a_X.py", "X") ∧
    ([("s/a_X.py", [1]), ("d/a.py", [1]), ("e/a.py", [1])] : FS) =
      fsWrite [("d/a.py", [1]), ("e/a.py", [1])] "s/a_X.py" [1] := by
  have h := c1_amended_dedup (fun _ => "X")
      [("d/a.py", [1]), ("e/a.py", [1])]
      ⟨"d", "a", ".py"⟩ ⟨"e", "a", ".py"⟩ "s" [1]
      [("s/a_X.py", [1]), ("d/a.py", [1]), ("e/a.py", [1])] "s/a_X.py" "X"
      rfl rfl rfl rfl rfl
  exact ⟨h.1, h.2 rfl⟩

/-- C9 (code-bug evaluation): `HPCFSObserver.__eq__` raises `NameError` even
for two observers with the same base directory, because its body references
the undefined name `FileStorageObserver`; the comparison never returns a
boolean, let alone `True`. -/
theorem c9_observer_eq_raises :
    observerEq
        { basedir := "/runs", resource_dir := "/runs/_resources",
          source_dir := "/runs/_sources", pri := 20 }
        { basedir := "/runs", resource_dir := "/runs/_resources",
          source_dir := "/runs/_sources", pri := 20 } =
      Except.error "NameError: name FileStorageObserver is not defined" := rfl

/-- C4: calling `completed_event` on a running record with a result that is
not a dict fails the `assert isinstance(result, dict)` check and leaves
`status` unmutated — it stays `RUNNING` and is never set to `COMPLETED`.
The `eta` key is present on every running record (`started_event` creates
it and no event before completion removes it). -/
theorem c4_complete_nondict_status (s : ObsState) (t : String) (r : PyVal)
    (hrun : s.run_entry.status = "RUNNING")
    (heta : (s.run_entry.eta).isSome = true)
    (hr : r.isDict = false) :
    (completed_event s t r).2 =
      Option.some "AssertionError: Your experiments has to return a dictionary!" ∧
    (completed_event s t r).1.run_entry.status = "RUNNING" := by
  obtain ⟨x, hx⟩ := Option.isSome_iff_exists.mp heta
  cases r <;> simp_all [completed_event, PyVal.isDict]

/-- C4 witness: completing a freshly started run with the scalar result
`5`. -/
theorem c4_witness :
    (completed_event (started_event PyVal.none "cmd" PyVal.none "t0"
        PyVal.none PyVal.none) "t1" (PyVal.num 5)).2 =
      Option.some "AssertionError: Your experiments has to return a dictionary!" ∧
    (completed_event (started_event PyVal.none "cmd" PyVal.none "t0"
        PyVal.none PyVal.none) "t1" (PyVal.num 5)).1.run_entry.status =
      "RUNNING" :=
  c4_complete_nondict_status _ "t1" (PyVal.num 5) rfl rfl rfl

/-- C10: `completed_event` straight after `started_event` (no heartbeat)
with a non-empty result dict raises `KeyError` on the first result key,
because `started_event` never creates the `'result'` key — only
`heartbeat_event` does — and the status is left at `RUNNING`. -/
theorem c10_complete_without_heartbeat (ex : PyVal) (cmd : String)
    (host : PyVal) (t0 : String) (cfg meta : PyVal) (t : String)
    (k : String) (v : PyVal) (rest : List (String × PyVal)) :
    (completed_event (started_event ex cmd host t0 cfg meta) t
        (PyVal.dict ((k, v) :: rest))).2 = Option.some "KeyError: result" ∧
    (completed_event (started_event ex cmd host t0 cfg meta) t
        (PyVal.dict ((k, v) :: rest))).1.run_entry.status = "RUNNING" := by
  simp [started_event, completed_event, completeLoop]

/-- C8: the heartbeat's ETA update is best effort.  When the supplied
result is a number `r > 0` the record's `eta` is set to
`(1/r - 1) * secondsSinceStart`; when the result is zero, non-numeric or
missing (`None`), the computation raises inside the `try`, the `except`
swallows it and `eta` is left exactly as it was (in particular still the
initial `None` when no earlier heartbeat set it), and the heartbeat itself
completes normally — it is a total function of the state. -/
theorem c8_heartbeat_eta_best_effort (s : ObsState) (info : PyVal)
    (co bt : String) (result : PyVal) (dt : ℚ) :
    (∀ r : ℚ, result = PyVal.num r → 0 < r →
      (heartbeat_event s info co bt result dt).run_entry.eta =
        Option.some (Option.some ((1 / r - 1) * dt))) ∧
    ((result = PyVal.num 0 ∨ ∀ r : ℚ, result ≠ PyVal.num r) →
      (heartbeat_event s info co bt result dt).run_entry.eta =
        s.run_entry.eta) := by
  constructor
  · intro r hr hpos
    subst hr
    have hne : r ≠ 0 := ne_of_gt hpos
    simp [heartbeat_event, etaTry, hne]
  · intro h
    cases h with
    | inl h0 =>
      subst h0
      simp [heartbeat_event, etaTry]
    | inr hnn =>
      cases result with
      | none => simp [heartbeat_event, etaTry]
      | num r => exact absurd rfl (hnn r)
      | str a => simp [heartbeat_event, etaTry]
      | list a => simp [heartbeat_event, etaTry]
      | dict a => simp [heartbeat_event, etaTry]

/-- C8 witness: a heartbeat with progress `1/2` after 10 seconds sets
`eta = 10`; a heartbeat with the non-numeric result `"x"` leaves the
fresh record's `eta` at its initial `None`. -/
theorem c8_witness :
    (heartbeat_event (started_event PyVal.none "cmd" PyVal.none "t0"
        PyVal.none PyVal.none) PyVal.none "" "b1" (PyVal.num (1/2))
        10).run_entry.eta = Option.some (Option.some 10) ∧
    (heartbeat_event (started_event PyVal.none "cmd" PyVal.none "t0"
        PyVal.none PyVal.none) PyVal.none "" "b1" (PyVal.str "x")
        10).run_entry.eta = Option.some Option.none := by
  constructor
  · have h := (c8_heartbeat_eta_best_effort (started_event PyVal.none "cmd"
        PyVal.none "t0" PyVal.none PyVal.none) PyVal.none "" "b1"
        (PyVal.num (1/2)) 10).1 (1/2) rfl (by norm_num)
    rw [h]
    norm_num
  · have h := (c8_heartbeat_eta_best_effort (started_event PyVal.none "cmd"
        PyVal.none "t0" PyVal.none PyVal.none) PyVal.none "" "b1"
        (PyVal.str "x") 10).2 (Or.inr (fun r hr => PyVal.noConfusion hr))
    rw [h]
    rfl

/-- A heartbeat never changes the status field. -/
theorem heartbeat_event_status (s : ObsState) (info : PyVal) (co bt : String)
    (result : PyVal) (dt : ℚ) :
    (heartbeat_event s info co bt result dt).run_entry.status =
      s.run_entry.status := by
  cases h : etaTry result dt <;> simp [heartbeat_event, h]

/-- A sequence of heartbeats never changes the status field. -/
theorem runHeartbeats_status (l : List HBArgs) (s : ObsState) :
    (runHeartbeats s l).run_entry.status = s.run_entry.status := by
  induction l generalizing s with
  | nil => rfl
  | cons h rest ih =>
    rw [runHeartbeats, ih, heartbeat_event_status]

/-- When `completed_event` returns without raising, it has set the status to
`COMPLETED`. -/
theorem completed_event_ok_status (s : ObsState) (t : String) (r : PyVal)
    (hok : (completed_event s t r).2 = Option.none) :
    (completed_event s t r).1.run_entry.status = "COMPLETED" := by
  unfold completed_event at hok ⊢
  rcases s with ⟨⟨exp, cmd, host, st0, meta, status, res, arts, hb, cfg, eta,
    stop, result, ft⟩, info, cout⟩
  cases eta with
  | none => simp at hok
  | some x =>
    cases r with
    | dict items =>
      simp only at hok ⊢
      rcases hl : completeLoop
          { experiment := exp, command := cmd, host := host, start_time := st0,
            meta := meta, status := status, resources := res, artifacts := arts,
            heartbeat := hb, config := cfg, eta := Option.none,
            stop_time := Option.some t, result := result, fail_trace := ft }
          items with ⟨e2, err⟩
      cases err with
      | none => simp [hl]
      | some msg =>
        rw [hl] at hok
        simp at hok
    | none => simp at hok
    | num q => simp at hok
    | str a => simp at hok
    | list a => simp at hok

/-- C3: along a valid lifecycle `start → heartbeat* → terminal`, the status
starts at `RUNNING`, stays `RUNNING` after every prefix of the heartbeats,
and the (successful) terminal event moves it exactly once to its terminal
value — `COMPLETED`, the interrupt label, or `FAILED` — which is not
`RUNNING` (the interrupt label is assumed to be a genuine terminal label,
as in the spec's status enum). -/
theorem c3_lifecycle_status (ex : PyVal) (cmd : String) (host : PyVal)
    (t0 : String) (cfg meta : PyVal) (hbs : List HBArgs) (term : TermEvent)
    (hlabel : termLabel term ≠ "RUNNING")
    (hok : (applyTerm (runHeartbeats (started_event ex cmd host t0 cfg meta)
        hbs) term).2 = Option.none) :
    (started_event ex cmd host t0 cfg meta).run_entry.status = "RUNNING" ∧
    (∀ pre suf : List HBArgs, hbs = pre ++ suf →
      (runHeartbeats (started_event ex cmd host t0 cfg meta)
          pre).run_entry.status = "RUNNING") ∧
    (applyTerm (runHeartbeats (started_event ex cmd host t0 cfg meta) hbs)
        term).1.run_entry.status = termLabel term ∧
    termLabel term ≠ "RUNNING" := by
  refine ⟨rfl, ?_, ?_, hlabel⟩
  · intro pre suf hpre
    rw [runHeartbeats_status]
    rfl
  · cases term with
    | complete t r => exact completed_event_ok_status _ t r hok
    | interrupt t st => rfl
    | fail t tr => rfl

/-- C3 witness: one heartbeat then a failure; the final status is
`FAILED`. -/
theorem c3_witness :
    (applyTerm (runHeartbeats (started_event PyVal.none "cmd" PyVal.none
        "t0" PyVal.none PyVal.none)
        [⟨PyVal.none, "", "b1", PyVal.num (1/2), 10⟩])
      (TermEvent.fail "t2" "trace")).1.run_entry.status = "FAILED" := by
  have h := c3_lifecycle_status PyVal.none "cmd" PyVal.none "t0" PyVal.none
      PyVal.none [⟨PyVal.none, "", "b1", PyVal.num (1/2), 10⟩]
      (TermEvent.fail "t2" "trace") (by decide) rfl
  simpa using h.2.2.1

/-- Whether a walked directory holds a well-formed record whose status is
`COMPLETED`. -/
def isCompletedEntry (p : String × LoadResult) : Bool :=
  match p.2 with
  | LoadResult.datum (Option.some st) _ => st = "COMPLETED"
  | _ => false

/-- The document `create_tinyDB` inserts for a well-formed walked directory:
its status together with its result mapping, every file reference prefixed
by the directory's path relative to the source root (junk on other
entries). -/
def docFor (p : String × LoadResult) : RunDoc :=
  match p.2 with
  | LoadResult.datum (Option.some st) (Option.some res) =>
    { status := st, result := res.map (fun kv => (kv.1, pathJoin p.1 kv.2)) }
  | _ => { status := "", result := [] }

/-- On a walk whose directories either carry no record file or carry a
well-formed record, the sweep with `skip_incomplete` set inserts exactly the
COMPLETED entries' rewritten documents, in walk order, and logs nothing. -/
theorem sweep_valid (walk : List (String × LoadResult))
    (hvalid : ∀ p ∈ walk, p.2 = LoadResult.noRecord ∨ ∃ st res,
        p.2 = LoadResult.datum (Option.some st) (Option.some res)) :
    sweep true walk = ((walk.filter isCompletedEntry).map docFor, []) := by
  induction walk with
  | nil => rfl
  | cons p rest ih =>
    have hrest := ih (fun q hq => hvalid q (List.mem_cons_of_mem p hq))
    rcases hvalid p (List.mem_cons_self p rest) with hp | ⟨st, res, hp⟩ <;>
      rcases p with ⟨rel, d⟩ <;> simp only at hp <;> subst hp
    · simp [sweep, hrest, processDir, isCompletedEntry]
    · by_cases hst : st = "COMPLETED"
      · subst hst
        simp [sweep, hrest, processDir, isCompletedEntry, docFor]
      · simp [sweep, hrest, processDir, isCompletedEntry, docFor, hst]

/-- The sweep distributes over concatenated walks. -/
theorem sweep_append (skip : Bool) (a b : List (String × LoadResult)) :
    sweep skip (a ++ b) =
      ((sweep skip a).1 ++ (sweep skip b).1,
       (sweep skip a).2 ++ (sweep skip b).2) := by
  induction a with
  | nil => simp [sweep]
  | cons p rest ih =>
    rcases p with ⟨rel, d⟩
    simp only [List.cons_append, sweep, ih]
    cases processDir rel d skip <;> simp [ih]

/-- C6: when the destination file already exists and `overwrite` is false,
`create_tinyDB` raises `FileExistsError` immediately: the destination keeps
its previous content, nothing is inserted and nothing is logged. -/
theorem c6_existing_destination (docs : List RunDoc) (skip : Bool)
    (walk : List (String × LoadResult)) :
    create_tinyDB (Option.some docs) false skip walk =
      { dest := Option.some docs,
        err := Option.some "FileExistsError: Databasefile already exists",
        logs := [] } := by
  simp [create_tinyDB]

/-- C5: on a source tree whose run directories all hold well-formed records,
aggregation with `skip_incomplete = true` raises nothing and inserts exactly
the documents of the COMPLETED directories — one per COMPLETED directory, so
exactly N documents for N COMPLETED among M others — each with every result
entry's file reference prefixed by that directory's path relative to the
source root (the rewriting inside `docFor`). -/
theorem c5_aggregate_completed_count (walk : List (String × LoadResult))
    (hvalid : ∀ p ∈ walk, p.2 = LoadResult.noRecord ∨ ∃ st res,
        p.2 = LoadResult.datum (Option.some st) (Option.some res)) :
    (create_tinyDB Option.none false true walk).err = Option.none ∧
    (create_tinyDB Option.none false true walk).dest =
      Option.some ((walk.filter isCompletedEntry).map docFor) ∧
    ((walk.filter isCompletedEntry).map docFor).length =
      (walk.filter isCompletedEntry).length := by
  have hs := sweep_valid walk hvalid
  refine ⟨?_, ?_, by simp⟩ <;> simp [create_tinyDB, hs]

/-- C5 witness: a walk with one COMPLETED and one RUNNING directory inserts
exactly the COMPLETED one, its result reference rewritten under `run1/`. -/
theorem c5_witness :
    (create_tinyDB Option.none false true
        [(".", LoadResult.noRecord),
         ("run1", LoadResult.datum (Option.some "COMPLETED")
            (Option.some [("loss", "loss.gzp")])),
         ("run2", LoadResult.datum (Option.some "RUNNING")
            (Option.some []))]).dest =
      Option.some [{ status := "COMPLETED",
                     result := [("loss", "run1/loss.gzp")] }] := by
  have h := c5_aggregate_completed_count
      [(".", LoadResult.noRecord),
       ("run1", LoadResult.datum (Option.some "COMPLETED")
          (Option.some [("loss", "loss.gzp")])),
       ("run2", LoadResult.datum (Option.some "RUNNING")
          (Option.some []))]
      (by
        intro p hp
        simp only [List.mem_cons, List.not_mem_nil, or_false] at hp
        rcases hp with h | h | h
        · exact Or.inl (by rw [h])
        · exact Or.inr ⟨"COMPLETED", [("loss", "loss.gzp")], by rw [h]⟩
        · exact Or.inr ⟨"RUNNING", [], by rw [h]⟩)
  exact h.2.1

/-- C7: a corrupt record among otherwise well-formed directories is caught
per-directory: no exception escapes `create_tinyDB`, the failure message for
that directory is logged, and the resulting index holds exactly the valid
COMPLETED runs on both sides of the corrupt one. -/
theorem c7_corrupt_directory_skipped (pre post : List (String × LoadResult))
    (rel : String)
    (hpre : ∀ p ∈ pre, p.2 = LoadResult.noRecord ∨ ∃ st res,
        p.2 = LoadResult.datum (Option.some st) (Option.some res))
    (hpost : ∀ p ∈ post, p.2 = LoadResult.noRecord ∨ ∃ st res,
        p.2 = LoadResult.datum (Option.some st) (Option.some res)) :
    (create_tinyDB Option.none false true
        (pre ++ (rel, LoadResult.parseError) :: post)).err = Option.none ∧
    (create_tinyDB Option.none false true
        (pre ++ (rel, LoadResult.parseError) :: post)).dest =
      Option.some ((pre.filter isCompletedEntry).map docFor ++
        (post.filter isCompletedEntry).map docFor) ∧
    logMsg rel ∈ (create_tinyDB Option.none false true
        (pre ++ (rel, LoadResult.parseError) :: post)).logs := by
  have hmid : sweep true ((rel, LoadResult.parseError) :: post) =
      ((post.filter isCompletedEntry).map docFor, [logMsg rel]) := by
    simp [sweep, sweep_valid post hpost, processDir]
  have ha := sweep_append true pre ((rel, LoadResult.parseError) :: post)
  rw [sweep_valid pre hpre, hmid] at ha
  refine ⟨?_, ?_, ?_⟩ <;> simp [create_tinyDB, ha]

/-- C7 witness: a corrupt directory between two COMPLETED ones; both valid
runs are indexed and the corrupt one is logged. -/
theorem c7_witness :
    (create_tinyDB Option.none false true
        [("run1", LoadResult.datum (Option.some "COMPLETED")
            (Option.some [])),
         ("bad", LoadResult.parseError),
         ("run3", LoadResult.datum (Option.some "COMPLETED")
            (Option.some []))]).err = Option.none ∧
    (create_tinyDB Option.none false true
        [("run1", LoadResult.datum (Option.some "COMPLETED")
            (Option.some [])),
         ("bad", LoadResult.parseError),
         ("run3", LoadResult.datum (Option.some "COMPLETED")
            (Option.some []))]).dest =
      Option.some [{ status := "COMPLETED", result := [] },
                   { status := "COMPLETED", result := [] }] ∧
    logMsg "bad" ∈ (create_tinyDB Option.none false true
        [("run1", LoadResult.datum (Option.some "COMPLETED")
            (Option.some [])),
         ("bad", LoadResult.parseError),
         ("run3", LoadResult.datum (Option.some "COMPLETED")
            (Option.some []))]).logs := by
  have h := c7_corrupt_directory_skipped
      [("run1", LoadResult.datum (Option.some "COMPLETED") (Option.some []))]
      [("run3", LoadResult.datum (Option.some "COMPLETED") (Option.some []))]
      "bad"
      (by
        intro p hp
        simp only [List.mem_cons, List.not_mem_nil, or_false] at hp
        exact Or.inr ⟨"COMPLETED", [], by rw [hp]⟩)
      (by
        intro p hp
        simp only [List.mem_cons, List.not_mem_nil, or_false] at hp
        exact Or.inr ⟨"COMPLETED", [], by rw [hp]⟩)
  exact ⟨h.1, h.2.1, h.2.2⟩
